import Mathlib

/-!
Verification development for the run-orchestration and event-driven
progress-tracking engine of the Asteroid repository (backend/agents/base.py,
backend/agents/bess_orchestrator.py, backend/agents/document_processor.py,
backend/agents/content_generator.py, backend/agents/document_assembler.py,
backend/api/agent_routes.py).

The Python code is shallowly embedded: dataclasses become structures, Python
dicts with a fixed key set become structures with `Option` fields for keys
that are present only on some code paths, `datetime` timestamps become `Nat`
tick values, Python numbers flowing through true division become `ℚ`, and
raised exceptions become `Except String`.  External effects (file system,
network, wall clock) are parameters of the model.
-/

namespace Asteroid

/-- Event kinds, from `EventType` in backend/agents/base.py. -/
inductive EventType where
  | started
  | progress
  | step_started
  | step_completed
  | warning
  | error
  | completed
  | failed
deriving DecidableEq, Repr

/-- Run statuses, from `RunStatus` in backend/agents/base.py. -/
inductive RunStatus where
  | queued
  | running
  | succeeded
  | failed
  | canceled
deriving DecidableEq, Repr

/-- The keys of the free-form `data` payload of an `AgentEvent` that the code
ever reads or writes: `current`/`total`/`progress` (written by
`BaseAgent.emit_progress`), `total_docs` (written by
`DocumentProcessor._execute`), `step` (written by `BaseAgent.emit_step`).
A key absent from the Python dict is `none`. -/
structure EventData where
  current : Option ℚ := none
  total : Option ℚ := none
  progress : Option ℚ := none
  total_docs : Option ℚ := none
  step : Option String := none
  result : Option String := none
deriving DecidableEq, Repr

/-- Event emitted by agents during execution, from `AgentEvent` in
backend/agents/base.py (the `timestamp` field becomes a `Nat` tick). -/
structure AgentEvent where
  run_id : String
  agent_id : String
  event_type : EventType
  timestamp : Nat := 0
  message : String := ""
  data : EventData := {}
  error : Option String := none
deriving DecidableEq, Repr

/-- One extracted-document record, from the dict returned by
`DocumentProcessor._extract_content`. -/
structure ExtractedDoc where
  file_path : String
  file_name : String
  file_type : String
  content : String
  full_length : Int
  relevance_score : ℚ
deriving DecidableEq, Repr

/-- The dict returned by `DocumentProcessor._execute`.  The zero-documents
early return (document_processor.py lines 29-31) produces only the
`processed_files` and `extracted_content` keys, so `total_processed` and
`total_found` are `Option`s: `none` models an absent key. -/
structure DocResult where
  processed_files : List String
  extracted_content : List ExtractedDoc
  total_processed : Option Int := none
  total_found : Option Int := none
deriving DecidableEq, Repr

/-- One generated section, from the dicts built in
`ContentGenerator._execute` and `_generate_basic_template`. -/
structure Section where
  title : String
  content : String
  confidence : ℚ
deriving DecidableEq, Repr

/-- The dict returned by `ContentGenerator._execute`; `sections` is the
ordered association list of section id to section. -/
structure ContentResult where
  sections : List (String × Section)
  document_type : String
  source_files : Int
  query : String
  using_mock : Bool
deriving DecidableEq, Repr

/-- Document metadata, from `DocumentAssembler._generate_metadata`. -/
structure DocMetadata where
  title : String
  project_name : String
  document_type : String
  generated_date : String
  generated_datetime : String
  source_files : Int
  sections_count : Int
  using_mock : Bool
deriving DecidableEq, Repr

/-- The dict returned by `DocumentAssembler._execute`. -/
structure AsmResult where
  markdown : String
  html : String
  files : List String
  metadata : DocMetadata
  sections_count : Int
  document_type : String
deriving DecidableEq, Repr

/-- The `final_result` dict assembled by `BESSOrchestrator._run_pipeline`
(bess_orchestrator.py lines 119-144), flattened per nested dict key. -/
structure FinalResult where
  pipeline_completed : Bool
  dp_files_found : Int
  dp_files_processed : Int
  dp_processed_files : List String
  cg_sections_generated : Int
  cg_using_mock : Bool
  cg_sections : List (String × Section)
  da_markdown : String
  da_html : String
  da_files : List String
  da_metadata : DocMetadata
  summary_query : String
  summary_document_type : String
  summary_source_files_processed : Int
  summary_sections_generated : Int
  summary_output_files : List String
deriving DecidableEq, Repr

/-- Mutable state of one run, from `RunState` in backend/agents/base.py.
`processed_docs` is assigned from the events' numeric `current` payload by
the subscriber, hence `ℚ`; timestamps are `Nat` ticks. -/
structure RunState where
  id : String
  status : RunStatus := .queued
  query : String := ""
  max_docs : Int := 0
  processed_docs : ℚ := 0
  total_docs : Option ℚ := none
  current_step : String := ""
  progress : ℚ := 0
  error : Option String := none
  finished : Bool := false
  created_at : Nat := 0
  updated_at : Nat := 0
  result : Option FinalResult := none
  events : List AgentEvent := []
deriving DecidableEq, Repr

/-- A fresh run record as allocated by `AgentOrchestrator.start_run`
(base.py lines 204-215): all defaulted fields of the dataclass, status
Queued, both timestamps at creation time. -/
def initRun (id query : String) (max_docs : Int) (t : Nat) : RunState :=
  { id := id, query := query, max_docs := max_docs, status := .queued,
    created_at := t, updated_at := t }

/-- The orchestrator's bus-subscriber callback
`BESSOrchestrator._handle_agent_event` (bess_orchestrator.py lines 31-83),
viewed from the single run it may touch: when the event's run id is not the
one registered under `rs.id` the callback returns without mutating anything
(`if run_id not in self.runs: return`); otherwise the event is appended to
the log, the state fields are updated according to the event type, and
`updated_at` is refreshed. -/
def handleAgentEvent (rs : RunState) (ev : AgentEvent) (now : Nat) : RunState :=
  if ev.run_id ≠ rs.id then rs
  else
    let rs1 := { rs with events := rs.events ++ [ev] }
    let rs2 :=
      match ev.event_type with
      | .step_started => { rs1 with current_step := ev.data.step.getD ev.message }
      | .progress =>
        if ev.agent_id = "document_processor" then
          let rs' :=
            match ev.data.current, ev.data.total with
            | some c, some t =>
              { rs1 with
                processed_docs := c
                total_docs := some t
                progress := max rs1.progress (if 0 < t then c / t * 40 else 0) }
            | _, _ => rs1
          match ev.data.total_docs with
          | some td => { rs' with total_docs := some td }
          | none => rs'
        else if ev.agent_id = "content_generator" then
          match ev.data.current, ev.data.total with
          | some c, some t =>
            { rs1 with
              progress := max rs1.progress (40 + (if 0 < t then c / t * 50 else 0)) }
          | _, _ => rs1
        else if ev.agent_id = "document_assembler" then
          match ev.data.current, ev.data.total with
          | some c, some t =>
            { rs1 with
              progress := max rs1.progress (90 + (if 0 < t then c / t * 10 else 0)) }
          | _, _ => rs1
        else rs1
      | .warning => rs1
      | .error => { rs1 with error := ev.error }
      | _ => rs1
    { rs2 with updated_at := now }

/-! ### Event construction helpers (`BaseAgent` methods, base.py lines 126-185) -/

/-- Event construction as done by `BaseAgent.emit_event` when a run id is
set (the emission itself is returned to the caller; suppression for an unset
run id is handled in `agentExecute`). -/
def mkEvent (run_id agent_id : String) (event_type : EventType)
    (message : String := "") (data : EventData := {})
    (error : Option String := none) : AgentEvent :=
  { run_id := run_id, agent_id := agent_id, event_type := event_type,
    message := message, data := data, error := error }

/-- The event built by `BaseAgent.emit_step`. -/
def stepEvent (run_id agent_id step_name : String) (message : String := "") : AgentEvent :=
  mkEvent run_id agent_id .step_started
    (if message = "" then "Starting " ++ step_name else message)
    { step := some step_name }

/-- The event built by `BaseAgent.emit_progress`: data carries `current`,
`total` and a percentage `progress` (`current/total*100`, 0 when
`total <= 0`). -/
def progressEvent (run_id agent_id : String) (current total : ℚ)
    (message : String := "") : AgentEvent :=
  mkEvent run_id agent_id .progress message
    { current := some current, total := some total,
      progress := some (if 0 < total then current / total * 100 else 0) }

/-- The event built by `BaseAgent.emit_warning`. -/
def warningEvent (run_id agent_id message : String) (data : EventData := {}) : AgentEvent :=
  mkEvent run_id agent_id .warning message data

/-! ### Stage execution wrapper (`BaseAgent.execute`, base.py lines 147-163) -/

/-- Outcome of one agent's core work (`_execute`): the events it emits via
the `emit_*` helpers, in emission order, and its returned result or raised
exception. -/
def WorkOutcome (α : Type) : Type := List AgentEvent × Except String α

/-- The lifecycle wrapper `BaseAgent.execute`: it sets `current_run_id`,
emits a Started event, runs the work, emits Completed (carrying a summary of
the result in `data`) and returns the result on success, or emits Failed
(carrying the exception message) and re-raises on failure.  Because
`emit_event` drops every emission while `current_run_id` is falsy, an empty
`run_id` string suppresses all events, the work's own included. -/
def agentExecute {α : Type} (agent_id run_id : String) (resultSummary : α → String)
    (work : WorkOutcome α) : List AgentEvent × Except String α :=
  if run_id = "" then ([], work.2)
  else
    let startedEv := mkEvent run_id agent_id .started ("Starting " ++ agent_id)
    match work.2 with
    | .ok r =>
      (startedEv :: work.1 ++
        [mkEvent run_id agent_id .completed ("Completed " ++ agent_id)
          { result := some (resultSummary r) }],
       .ok r)
    | .error e =>
      (startedEv :: work.1 ++
        [mkEvent run_id agent_id .failed ("Failed " ++ agent_id) {} (some e)],
       .error e)

/-! ### Event bus (`EventEmitter`, base.py lines 97-114) -/

/-- One registered bus subscriber: an identifying tag plus its action on a
state of type `σ`.  `run ev s = (s', some m)` models a callback that, given
the event, leaves the shared state at `s'` and raises an exception with
message `m`; `(s', none)` models a normal return. -/
structure BusCallback (σ : Type) where
  id : Nat
  run : AgentEvent → σ → σ × Option String

/-- The publish loop `EventEmitter.emit`: every subscriber is called in
subscription order inside a try/except, so a raised exception is caught and
logged and the loop continues.  The embedding returns the final shared
state, the ordered list of performed invocations (callback id, delivered
event), and the ordered list of caught exception messages — and, being a
total function into a plain pair, never propagates an exception to the
publisher. -/
def emitBus {σ : Type} (subs : List (BusCallback σ)) (ev : AgentEvent) (s : σ) :
    σ × List (Nat × AgentEvent) × List String :=
  match subs with
  | [] => (s, [], [])
  | c :: rest =>
    let out := c.run ev s
    let tail := emitBus rest ev out.1
    (tail.1, (c.id, ev) :: tail.2.1,
     match out.2 with
     | some m => m :: tail.2.2
     | none => tail.2.2)

/-! ### Registry queries and the cancel route
(base.py lines 251-261, agent_routes.py lines 66-90 and 186-203) -/

/-- The run registry `AgentOrchestrator.runs`, keyed by run id. -/
def Registry : Type := List (String × RunState)

/-- Error carried by a FastAPI `HTTPException`. -/
structure HTTPError where
  status_code : Nat
  detail : String
deriving DecidableEq, Repr

/-- The read-only lookup `AgentOrchestrator.get_run_status`: `None` for an
unknown id, otherwise the run's snapshot. -/
def getRunStatus (runs : Registry) (run_id : String) : Option RunState :=
  List.lookup run_id runs

/-- The read-only lookup `AgentOrchestrator.get_run_events`: the empty list
for an unknown id, otherwise the run's event log. -/
def getRunEvents (runs : Registry) (run_id : String) : List AgentEvent :=
  match List.lookup run_id runs with
  | none => []
  | some r => r.events

/-- The route handler `get_run_status` (agent_routes.py lines 66-74): a
falsy lookup result becomes HTTP 404 "Run not found".  The handler only
reads the registry. -/
def routeGetRunStatus (runs : Registry) (run_id : String) : Except HTTPError RunState :=
  match getRunStatus runs run_id with
  | none => .error ⟨404, "Run not found"⟩
  | some r => .ok r

/-- The route handler `get_run_events` (agent_routes.py lines 86-90): always
HTTP 200, with the (possibly empty) event list.  The handler only reads the
registry. -/
def routeGetRunEvents (runs : Registry) (run_id : String) : String × List AgentEvent :=
  (run_id, getRunEvents runs run_id)

/-- Replacement of one registry entry, as done by assigning to
`orchestrator.runs[run_id]`'s fields. -/
def setRun (runs : Registry) (run_id : String) (r : RunState) : Registry :=
  runs.map fun p => if p.1 = run_id then (p.1, r) else p

/-- The route handler `cancel_run` (agent_routes.py lines 186-203): 404 for
an unknown id, 400 for an already finished run — both raised before any
mutation, so the registry is returned untouched — and otherwise the run is
flipped to status Canceled, finished true, error "Canceled by user". -/
def cancelRun (runs : Registry) (run_id : String) : Registry × Except HTTPError String :=
  match getRunStatus runs run_id with
  | none => (runs, .error ⟨404, "Run not found"⟩)
  | some r =>
    if r.finished then (runs, .error ⟨400, "Run already finished"⟩)
    else
      (setRun runs run_id
        { r with status := .canceled, finished := true, error := some "Canceled by user" },
       .ok "Run canceled")

/-! ### Stage work models
(document_processor.py, content_generator.py, document_assembler.py).
Stage-internal external effects — the file system scan, text extraction,
the language-model call, rendering and saving output files, the wall
clock — enter as parameters; the control flow, the emitted events and the
shape of each returned dict follow the source. -/

/-- One file found by `DocumentProcessor._find_documents`, together with the
outcome of `_extract_content` on it: a raised exception, `None` (unsupported
suffix or blank content), or the extracted record. -/
structure SourceDoc where
  name : String
  outcome : Except String (Option ExtractedDoc)
deriving Repr

/-- The core work of `DocumentProcessor._execute` (document_processor.py
lines 21-71): scanning step event; on zero files a Warning and an early
return whose dict has only `processed_files` and `extracted_content`;
otherwise a `total_docs` Progress event, one Progress event per file (plus a
Warning for a file whose extraction raises), a final Progress event, and the
full four-key dict. -/
def docProcessorWork (run_id : String) (docs : List SourceDoc)
    (max_docs : Int) : WorkOutcome DocResult :=
  let aid := "document_processor"
  let scanEv := stepEvent run_id aid "scanning" "Scanning document directory"
  if docs.isEmpty then
    ([scanEv, warningEvent run_id aid "No documents found to process"],
     .ok { processed_files := [], extracted_content := [] })
  else
    let docsUsed := if 0 < max_docs then docs.take max_docs.toNat else docs
    let total : Nat := docsUsed.length
    let foundEv := mkEvent run_id aid .progress
      ("Found " ++ toString total ++ " documents to process")
      { total_docs := some (total : ℚ) }
    let step := fun (acc : List AgentEvent × List String × List ExtractedDoc)
        (p : Nat × SourceDoc) =>
      let pe := progressEvent run_id aid (p.1 : ℚ) (total : ℚ)
        ("Processing " ++ p.2.name)
      match p.2.outcome with
      | .ok (some c) => (acc.1 ++ [pe], acc.2.1 ++ [p.2.name], acc.2.2 ++ [c])
      | .ok none => (acc.1 ++ [pe], acc.2.1, acc.2.2)
      | .error e =>
        (acc.1 ++ [pe,
          warningEvent run_id aid ("Failed to process " ++ p.2.name ++ ": " ++ e)],
         acc.2.1, acc.2.2)
    let r := docsUsed.enum.foldl step ([], [], [])
    (scanEv :: foundEv :: r.1 ++
      [progressEvent run_id aid (total : ℚ) (total : ℚ) "Document processing complete"],
     .ok { processed_files := r.2.1, extracted_content := r.2.2,
           total_processed := some (r.2.1.length : Int),
           total_found := some (total : Int) })

/-- The fixed section list of `ContentGenerator._execute` (section id,
section title). -/
def sectionsSpec : List (String × String) :=
  [("executive_summary", "Executive Summary"),
   ("introduction", "Introduction and Background"),
   ("project_description", "Project Description"),
   ("environmental_impact", "Environmental Impact Assessment"),
   ("mitigation_measures", "Mitigation Measures"),
   ("monitoring_plan", "Monitoring and Follow-up Plan"),
   ("conclusions", "Conclusions")]

/-- The summary string built by `ContentGenerator._summarize_content`. -/
def summarizeContent (extracted : List ExtractedDoc) : String :=
  String.intercalate "\n\n" ((extracted.take 5).map fun item =>
    "From " ++ item.file_name ++ " (" ++ item.file_type ++ "): " ++
      item.content.take 500 ++ "...")

/-- The template returned by `ContentGenerator._generate_basic_template`
when no source content is available: two low-confidence sections and
`using_mock = true`. -/
def basicTemplate (dtype query : String) : ContentResult :=
  { sections :=
      [("executive_summary",
        ⟨"Resumen Ejecutivo", "Resumen ejecutivo para el proyecto " ++ query, 0.2⟩),
       ("project_description",
        ⟨"Descripción del Proyecto", "Descripción técnica del proyecto " ++ query, 0.2⟩)],
    document_type := dtype, source_files := 0, query := query, using_mock := true }

/-- The core work of `ContentGenerator._execute` (content_generator.py lines
23-94).  `genSection i sid` is the text produced for the `i`-th section
(mock template or language-model call), abstracted because its content is
stage-internal; a raised generation error is recovered per section with a
Warning event and an error placeholder section, as in the source loop. -/
def contentGeneratorWork (run_id : String) (extracted : List ExtractedDoc)
    (query dtype : String) (use_mock : Bool)
    (genSection : Nat → String → Except String String) : WorkOutcome ContentResult :=
  let aid := "content_generator"
  let analysisEv := stepEvent run_id aid "analysis" "Analyzing source content"
  if extracted.isEmpty then
    ([analysisEv,
      warningEvent run_id aid "No content to analyze, generating basic template"],
     .ok (basicTemplate dtype query))
  else
    let _summary := summarizeContent extracted
    let genEv := stepEvent run_id aid "generation" "Generating document sections"
    let total : Nat := sectionsSpec.length
    let step := fun (acc : List AgentEvent × List (String × Section))
        (p : Nat × (String × String)) =>
      let pe := progressEvent run_id aid (p.1 : ℚ) (total : ℚ)
        ("Generating " ++ p.2.2)
      match genSection p.1 p.2.1 with
      | .ok text =>
        (acc.1 ++ [pe],
         acc.2 ++ [(p.2.1, ⟨p.2.2, text, if use_mock then 0.3 else 0.85⟩)])
      | .error e =>
        (acc.1 ++ [pe,
          warningEvent run_id aid ("Failed to generate " ++ p.2.2 ++ ": " ++ e)],
         acc.2 ++ [(p.2.1, ⟨p.2.2, "[Error generating section: " ++ e ++ "]", 0⟩)])
    let r := sectionsSpec.enum.foldl step ([analysisEv, genEv], [])
    (r.1 ++ [progressEvent run_id aid (total : ℚ) (total : ℚ) "Content generation complete"],
     .ok { sections := r.2, document_type := dtype,
           source_files := (extracted.length : Int), query := query,
           using_mock := use_mock })

/-- The core work of `DocumentAssembler._execute` (document_assembler.py
lines 21-59): assembly step event; `ValueError` when no sections were
provided; otherwise metadata from `_generate_metadata` (the clock enters as
`nowDate`/`nowIso`), four quarter Progress events, and the result dict.
Markdown/HTML rendering and the saved file paths are abstract parameters
(pure string production and file I/O). -/
def documentAssemblerWork (run_id : String) (generated : ContentResult)
    (query dtype : String) (nowDate nowIso : String)
    (renderMd renderHtml : List (String × Section) → DocMetadata → String)
    (savedFiles : List String) : WorkOutcome AsmResult :=
  let aid := "document_assembler"
  let asmEv := stepEvent run_id aid "assembly" "Assembling final document"
  let sections := generated.sections
  if sections.isEmpty then
    ([asmEv], .error "No sections provided for assembly")
  else
    let metadata : DocMetadata :=
      { title := "Declaración de Impacto Ambiental - " ++ query,
        project_name := query, document_type := dtype,
        generated_date := nowDate, generated_datetime := nowIso,
        source_files := generated.source_files,
        sections_count := (sections.length : Int),
        using_mock := generated.using_mock }
    ([asmEv,
      progressEvent run_id aid 1 4 "Creating markdown version",
      progressEvent run_id aid 2 4 "Creating HTML version",
      progressEvent run_id aid 3 4 "Saving documents",
      progressEvent run_id aid 4 4 "Document assembly complete"],
     .ok { markdown := renderMd sections metadata, html := renderHtml sections metadata,
           files := savedFiles, metadata := metadata,
           sections_count := (sections.length : Int), document_type := dtype })

/-! ### The BESS pipeline and run execution
(`BESSOrchestrator._run_pipeline`, bess_orchestrator.py lines 85-151, and
`AgentOrchestrator._execute_run`, base.py lines 222-244). -/

/-- Python dict subscript: the value when the key is present, otherwise a
raised `KeyError` whose `str()` is the quoted key name. -/
def dictKey {β : Type} (v : Option β) (key : String) : Except String β :=
  match v with
  | some x => .ok x
  | none => .error ("'" ++ key ++ "'")

/-- The document type every pipeline invocation hardcodes. -/
def dtypeBESS : String := "environmental_study_chile_dia_v1"

/-- The `final_result` construction at the end of
`BESSOrchestrator._run_pipeline` (lines 119-144).  The subscripts
`doc_result["total_found"]` and `doc_result["total_processed"]` are
evaluated in the source's dict-literal order, so a missing key raises
`KeyError` here even though all three stages already succeeded. -/
def buildFinalResult (doc : DocResult) (content : ContentResult) (asm : AsmResult)
    (query : String) : Except String FinalResult := do
  let tf ← dictKey doc.total_found "total_found"
  let tp ← dictKey doc.total_processed "total_processed"
  .ok { pipeline_completed := true,
        dp_files_found := tf, dp_files_processed := tp,
        dp_processed_files := doc.processed_files,
        cg_sections_generated := (content.sections.length : Int),
        cg_using_mock := content.using_mock, cg_sections := content.sections,
        da_markdown := asm.markdown, da_html := asm.html,
        da_files := asm.files, da_metadata := asm.metadata,
        summary_query := query, summary_document_type := dtypeBESS,
        summary_source_files_processed := tp,
        summary_sections_generated := (content.sections.length : Int),
        summary_output_files := asm.files }

/-- External collaborators of one pipeline execution: the files the scan
finds, the language-model configuration and per-section outcome, the wall
clock, the renderers and the saved output paths. -/
structure PipelineEnv where
  docs : List SourceDoc
  use_mock : Bool
  genSection : Nat → String → Except String String
  nowDate : String
  nowIso : String
  renderMd : List (String × Section) → DocMetadata → String
  renderHtml : List (String × Section) → DocMetadata → String
  savedFiles : List String

/-- Sequential delivery of a stage's emissions to the orchestrator's bus
subscriber (the bus is synchronous, so each event is handled before the
stage emits the next one). -/
def applyEvents (rs : RunState) (evs : List AgentEvent) (now : Nat) : RunState :=
  evs.foldl (fun s e => handleAgentEvent s e now) rs

/-- Success finalization of `AgentOrchestrator._execute_run` (base.py lines
233-236 and 244). -/
def finalizeSuccess (rs : RunState) (fr : FinalResult) (t : Nat) : RunState :=
  { rs with status := .succeeded, finished := true, result := some fr,
            progress := 100, updated_at := t }

/-- Failure finalization of `AgentOrchestrator._execute_run` (base.py lines
238-241 and 244). -/
def finalizeFailure (rs : RunState) (e : String) (t : Nat) : RunState :=
  { rs with status := .failed, finished := true, error := some e, updated_at := t }

/-- One complete, uncanceled run: `start_run` allocation, `_execute_run`
setting Running, the three stages of `BESSOrchestrator._run_pipeline` in
order (each one's result feeding the next, each one's emissions delivered
synchronously to `_handle_agent_event`), the `final_result` construction,
and terminal finalization.  A failure anywhere is caught by `_run_pipeline`
(which records `current_step = "Failed: ..."` and re-raises) and then by
`_execute_run`, which drives the run to Failed. -/
def executeRun (env : PipelineEnv) (run_id query : String) (max_docs : Int)
    (t : Nat) : RunState :=
  let rs1 := { initRun run_id query max_docs t with status := .running, updated_at := t }
  let rs2 := { rs1 with current_step := "Processing source documents" }
  let dOut := agentExecute "document_processor" run_id (fun _ => "")
    (docProcessorWork run_id env.docs max_docs)
  let rs3 := applyEvents rs2 dOut.1 t
  match dOut.2 with
  | .error e => finalizeFailure { rs3 with current_step := "Failed: " ++ e } e t
  | .ok docRes =>
    let rs4 := { rs3 with current_step := "Generating document content" }
    let cOut := agentExecute "content_generator" run_id (fun _ => "")
      (contentGeneratorWork run_id docRes.extracted_content query dtypeBESS
        env.use_mock env.genSection)
    let rs5 := applyEvents rs4 cOut.1 t
    match cOut.2 with
    | .error e => finalizeFailure { rs5 with current_step := "Failed: " ++ e } e t
    | .ok contentRes =>
      let rs6 := { rs5 with current_step := "Assembling final document" }
      let aOut := agentExecute "document_assembler" run_id (fun _ => "")
        (documentAssemblerWork run_id contentRes query dtypeBESS env.nowDate
          env.nowIso env.renderMd env.renderHtml env.savedFiles)
      let rs7 := applyEvents rs6 aOut.1 t
      match aOut.2 with
      | .error e => finalizeFailure { rs7 with current_step := "Failed: " ++ e } e t
      | .ok asmRes =>
        match buildFinalResult docRes contentRes asmRes query with
        | .error e => finalizeFailure { rs7 with current_step := "Failed: " ++ e } e t
        | .ok fr =>
          finalizeSuccess { rs7 with current_step := "Generation completed successfully" } fr t

/-! ### Run lifecycle as a transition system

The mutations a single `RunState` undergoes during its lifetime come from
exactly three places in the source: `AgentOrchestrator._execute_run`
(Running transition and terminal finalization), the bus subscriber
`BESSOrchestrator._handle_agent_event`, and the `cancel_run` route.  The
`active` flag is ghost state marking the window in which the
`_execute_run` task is executing the pipeline (between the Running
transition and the terminal finalization): only during that window do
stages emit events for this run, and cancellation does not interrupt the
task, so a canceled run's pipeline keeps emitting and is finalized anyway
when it returns. -/

/-- System state for one run: its registry record plus the ghost flag for
the in-flight pipeline task. -/
structure Sys where
  run : RunState
  active : Bool
deriving Repr

/-- Events the repository's agents can actually put on the bus.  Every
emission goes through `BaseAgent.emit_event`; no call site passes
`EventType.ERROR`, and every Progress event carrying `current`/`total`
comes from an `emit_progress` call site with `0 ≤ current ≤ total`
(document_processor.py lines 49 and 64, content_generator.py lines 57 and
86, document_assembler.py lines 39-50); the remaining Progress event
(document_processor.py lines 41-45) carries only `total_docs`. -/
def Emittable (ev : AgentEvent) : Prop :=
  ev.event_type ≠ .error ∧
  (ev.event_type = .progress →
    ∀ c t : ℚ, ev.data.current = some c → ev.data.total = some t → 0 ≤ c ∧ c ≤ t)

/-- One mutation of the run's state, from the three mutating code sites.
`beginRun` fires from Queued (the `_execute_run` task is scheduled at
creation and runs its synchronous prefix before any later request can be
served); `handle` and the two finalizations fire only while the pipeline
task is active; `cancel` is guarded exactly like the route (`finished`
false) and does not stop the task. -/
inductive Step : Sys → Sys → Prop where
  | beginRun (s : Sys) (t : Nat) :
      s.run.status = .queued → s.active = false →
      Step s ⟨{ s.run with status := .running, updated_at := t }, true⟩
  | handle (s : Sys) (ev : AgentEvent) (t : Nat) :
      s.active = true → Emittable ev →
      Step s ⟨handleAgentEvent s.run ev t, s.active⟩
  | cancel (s : Sys) :
      s.run.finished = false →
      Step s ⟨{ s.run with status := .canceled, finished := true,
                           error := some "Canceled by user" }, s.active⟩
  | finishSuccess (s : Sys) (fr : FinalResult) (t : Nat) :
      s.active = true →
      Step s ⟨{ s.run with status := .succeeded, finished := true,
                           result := some fr, progress := 100, updated_at := t }, false⟩
  | finishFailure (s : Sys) (e : String) (t : Nat) :
      s.active = true →
      Step s ⟨{ s.run with status := .failed, finished := true,
                           error := some e, updated_at := t }, false⟩

/-- States a run can be in at some point of some execution: freshly
allocated by `start_run`, or one mutation after a reachable state. -/
inductive Reachable : Sys → Prop where
  | init (id query : String) (max_docs : Int) (t : Nat) :
      Reachable ⟨initRun id query max_docs t, false⟩
  | step {s s' : Sys} : Reachable s → Step s s' → Reachable s'

/-- A terminal status: Succeeded, Failed or Canceled. -/
def RunStatus.terminal : RunStatus → Prop
  | .succeeded => True
  | .failed => True
  | .canceled => True
  | _ => False

instance : DecidablePred RunStatus.terminal := by
  intro s
  cases s <;> simp [RunStatus.terminal] <;> infer_instance

/-- The inductive invariant tying together finished/status/result/error,
the progress bound, and the statuses an active pipeline task can observe. -/
def Inv (s : Sys) : Prop :=
  (s.run.finished = true ↔ s.run.status.terminal) ∧
  (s.run.result.isSome ↔ s.run.status = .succeeded) ∧
  (s.run.status = .failed → s.run.error.isSome) ∧
  (s.run.status = .canceled → s.run.error.isSome) ∧
  (s.run.error.isSome → s.run.finished = true) ∧
  (0 ≤ s.run.progress ∧ s.run.progress ≤ 100) ∧
  (s.active = true → s.run.status = .running ∨ s.run.status = .canceled)

/-! ### Derived counts and concrete scenario states -/

/-- Number of events of a given kind in an event list (as the summary
counters of `BESSOrchestrator.get_run_summary` count them). -/
def countType (evs : List AgentEvent) (ty : EventType) : Nat :=
  (evs.filter fun e => e.event_type == ty).length

/-- The state of a run that was started, began running, and was then
canceled through the route while its pipeline was still in flight. -/
def canceledMidRun : Sys :=
  ⟨{ initRun "r0" "demo" 10 0 with
      status := .canceled, finished := true,
      error := some "Canceled by user", updated_at := 1 }, true⟩

/-- Pipeline collaborators for a run whose document scan finds zero files;
the other collaborators are never consulted on this path (the
content-generation oracle is unused because the empty input takes the
basic-template branch) or return inert values. -/
def zeroDocsEnv : PipelineEnv :=
  { docs := [], use_mock := true, genSection := fun _ _ => .ok "",
    nowDate := "01-01-2025", nowIso := "2025-01-01T00:00:00",
    renderMd := fun _ _ => "", renderHtml := fun _ _ => "",
    savedFiles := [] }

/-- The final state of a run executed over an empty documents directory. -/
def zeroDocsRun : RunState := executeRun zeroDocsEnv "run-0" "Parque BESS Norte" 10 0

/-- A one-run registry whose run has already succeeded (for exercising the
cancel route's InvalidState branch). -/
def regFinished : Registry :=
  [("a", { initRun "a" "q" 0 0 with status := .succeeded, finished := true })]

/-- A one-run registry whose run is still unfinished. -/
def regRunning : Registry := [("b", initRun "b" "q" 0 0)]

/-! ### Helper lemmas about the bus subscriber -/

/-- The subscriber never decreases `progress`: every branch either leaves it
alone or replaces it with a `max` whose left argument is the old value. -/
theorem handleAgentEvent_progress_mono (rs : RunState) (ev : AgentEvent) (now : Nat) :
    rs.progress ≤ (handleAgentEvent rs ev now).progress := by
  unfold handleAgentEvent
  repeat' split
  all_goals first
    | exact le_rfl
    | exact le_max_left _ _

/-- The subscriber never touches `status`, `finished` or `result`, and
touches `error` only on an Error event. -/
theorem handleAgentEvent_frame (rs : RunState) (ev : AgentEvent) (now : Nat)
    (hty : ev.event_type ≠ .error) :
    (handleAgentEvent rs ev now).status = rs.status ∧
    (handleAgentEvent rs ev now).finished = rs.finished ∧
    (handleAgentEvent rs ev now).result = rs.result ∧
    (handleAgentEvent rs ev now).error = rs.error := by
  unfold handleAgentEvent
  repeat' split
  all_goals first
    | exact ⟨rfl, rfl, rfl, rfl⟩
    | simp_all

/-- Under the events the agents actually emit, the subscriber keeps
`progress` at or below 100. -/
theorem handleAgentEvent_progress_le_100 (rs : RunState) (ev : AgentEvent) (now : Nat)
    (hev : Emittable ev) (h100 : rs.progress ≤ 100) :
    (handleAgentEvent rs ev now).progress ≤ 100 := by
  obtain ⟨-, hprog⟩ := hev
  unfold handleAgentEvent
  repeat' split
  all_goals try exact h100
  all_goals refine max_le h100 ?_
  all_goals try norm_num
  all_goals
    obtain ⟨hc0, hct⟩ := hprog (by assumption) _ _ (by assumption) (by assumption)
    have h1 : _ / _ ≤ (1 : ℚ) := (div_le_one (by assumption)).mpr hct
    nlinarith

/-! ### The lifecycle invariant holds in every reachable state -/

/-- A freshly allocated run satisfies the invariant. -/
theorem inv_init (id query : String) (max_docs : Int) (t : Nat) :
    Inv ⟨initRun id query max_docs t, false⟩ := by
  simp [Inv, initRun, RunStatus.terminal]

/-- Every mutation of the source preserves the invariant. -/
theorem inv_step {s s' : Sys} (h : Inv s) (hs : Step s s') : Inv s' := by
  obtain ⟨h1, h2, h3, h4, h5, ⟨h6a, h6b⟩, h7⟩ := h
  cases hs with
  | beginRun t hq ha =>
    have hfin : s.run.finished = false := by
      have hx := h1; rw [hq] at hx; simpa [RunStatus.terminal] using hx
    have hres : s.run.result = none := by
      cases hr : s.run.result with
      | none => rfl
      | some v =>
        have hx := h2.mp (by simp [hr])
        rw [hq] at hx; simp at hx
    have herr : s.run.error = none := by
      cases he : s.run.error with
      | none => rfl
      | some v =>
        have hf2 := h5 (by simp [he])
        rw [hfin] at hf2; simp at hf2
    unfold Inv
    refine ⟨?_, ?_, ?_, ?_, ?_, ⟨h6a, h6b⟩, fun _ => Or.inl rfl⟩ <;>
      simp [RunStatus.terminal, hfin, hres, herr]
  | handle ev t ha hev =>
    obtain ⟨fs, ff, fr, fe⟩ := handleAgentEvent_frame s.run ev t hev.1
    exact ⟨by rw [fs, ff]; exact h1, by rw [fs, fr]; exact h2,
      by rw [fs, fe]; exact h3, by rw [fs, fe]; exact h4,
      by rw [fe, ff]; exact h5,
      ⟨le_trans h6a (handleAgentEvent_progress_mono s.run ev t),
       handleAgentEvent_progress_le_100 s.run ev t hev h6b⟩,
      by rw [fs]; exact h7⟩
  | cancel hf =>
    have hres : s.run.result = none := by
      cases hr : s.run.result with
      | none => rfl
      | some v =>
        have hsu := h2.mp (by simp [hr])
        exact absurd (h1.mpr (by simp [hsu, RunStatus.terminal])) (by simp [hf])
    unfold Inv
    refine ⟨?_, ?_, ?_, ?_, ?_, ⟨h6a, h6b⟩, fun _ => Or.inr rfl⟩ <;>
      simp [RunStatus.terminal, hres]
  | finishSuccess fr t ha =>
    unfold Inv
    refine ⟨?_, ?_, ?_, ?_, fun _ => rfl, ⟨by norm_num, by norm_num⟩, ?_⟩ <;>
      simp [RunStatus.terminal]
  | finishFailure e t ha =>
    have hns : s.run.status ≠ .succeeded := by
      rcases h7 ha with hr | hr <;> simp [hr]
    have hres : s.run.result = none := by
      cases hr : s.run.result with
      | none => rfl
      | some v => exact absurd (h2.mp (by simp [hr])) hns
    unfold Inv
    refine ⟨?_, ?_, ?_, ?_, fun _ => rfl, ⟨h6a, h6b⟩, ?_⟩ <;>
      simp [RunStatus.terminal, hres]

/-- Every reachable state satisfies the invariant. -/
theorem reachable_inv {s : Sys} (h : Reachable s) : Inv s := by
  induction h with
  | init id query max_docs t => exact inv_init id query max_docs t
  | step _ hs ih => exact inv_step ih hs

/-! ### Claim theorems -/

/-- C5: for every run and at every point in its lifetime, the finished flag
is true if and only if the run's status is one of the terminal statuses
Succeeded, Failed, or Canceled. -/
theorem spec_c5_finished_iff_terminal (s : Sys) (h : Reachable s) :
    s.run.finished = true ↔
      (s.run.status = RunStatus.succeeded ∨ s.run.status = RunStatus.failed ∨
        s.run.status = RunStatus.canceled) := by
  have h1 := (reachable_inv h).1
  cases hst : s.run.status <;> simp_all [RunStatus.terminal]

/-- Witness for C5 at a freshly created run: not finished, status Queued. -/
theorem spec_c5_finished_iff_terminal_witness :
    ((⟨initRun "w5" "q" 5 0, false⟩ : Sys).run.finished = true ↔
      ((⟨initRun "w5" "q" 5 0, false⟩ : Sys).run.status = RunStatus.succeeded ∨
        (⟨initRun "w5" "q" 5 0, false⟩ : Sys).run.status = RunStatus.failed ∨
        (⟨initRun "w5" "q" 5 0, false⟩ : Sys).run.status = RunStatus.canceled)) :=
  spec_c5_finished_iff_terminal _ (Reachable.init "w5" "q" 5 0)

/-- C3: no update performed by the event subscriber or by the orchestrator's
finalization (nor the other mutations of the run record) ever moves
`progress` to a smaller value than it previously held. -/
theorem spec_c3_progress_monotone (s s' : Sys) (h : Reachable s) (hs : Step s s') :
    s.run.progress ≤ s'.run.progress := by
  cases hs with
  | beginRun t hq ha => exact le_rfl
  | handle ev t ha hev => exact handleAgentEvent_progress_mono s.run ev t
  | cancel hf => exact le_rfl
  | finishSuccess fr t ha => exact (reachable_inv h).2.2.2.2.2.1.2
  | finishFailure e t ha => exact le_rfl

/-- Witness for C3 on the Queued-to-Running transition of a fresh run. -/
theorem spec_c3_progress_monotone_witness :
    (⟨initRun "w3" "q" 5 0, false⟩ : Sys).run.progress ≤
      (⟨{ initRun "w3" "q" 5 0 with status := .running, updated_at := 1 },
        true⟩ : Sys).run.progress :=
  spec_c3_progress_monotone _ _ (Reachable.init "w3" "q" 5 0)
    (Step.beginRun _ 1 rfl rfl)

/-- C1 (amended): for every run, `result` is set iff the status is
Succeeded; a Failed or Canceled run has `error` set; `error` is set only
once the run is finished; and while the run is unfinished (Queued or
Running) neither `result` nor `error` is set.  (The original claim's
"error is set iff status == Failed" fails on canceled runs, which also
carry an error message.) -/
theorem spec_c1_result_error_fields (s : Sys) (h : Reachable s) :
    (s.run.result.isSome ↔ s.run.status = RunStatus.succeeded) ∧
    ((s.run.status = RunStatus.failed ∨ s.run.status = RunStatus.canceled) →
      s.run.error.isSome) ∧
    (s.run.error.isSome → s.run.finished = true) ∧
    (s.run.finished = false → s.run.result = none ∧ s.run.error = none) := by
  obtain ⟨h1, h2, h3, h4, h5, h6, h7⟩ := reachable_inv h
  refine ⟨h2, fun hfc => hfc.elim h3 h4, h5, fun hf => ⟨?_, ?_⟩⟩
  · cases hr : s.run.result with
    | none => rfl
    | some v =>
      have hsu := h2.mp (by simp [hr])
      have hfin := h1.mpr (by simp [hsu, RunStatus.terminal])
      rw [hfin] at hf; simp at hf
  · cases he : s.run.error with
    | none => rfl
    | some v =>
      have hfin := h5 (by simp [he])
      rw [hfin] at hf; simp at hf

/-- Witness for C1 (amended) at a freshly created run. -/
theorem spec_c1_result_error_fields_witness :
    (((⟨initRun "w1" "q" 5 0, false⟩ : Sys).run.result.isSome ↔
        (⟨initRun "w1" "q" 5 0, false⟩ : Sys).run.status = RunStatus.succeeded) ∧
      (((⟨initRun "w1" "q" 5 0, false⟩ : Sys).run.status = RunStatus.failed ∨
          (⟨initRun "w1" "q" 5 0, false⟩ : Sys).run.status = RunStatus.canceled) →
        (⟨initRun "w1" "q" 5 0, false⟩ : Sys).run.error.isSome) ∧
      ((⟨initRun "w1" "q" 5 0, false⟩ : Sys).run.error.isSome →
        (⟨initRun "w1" "q" 5 0, false⟩ : Sys).run.finished = true) ∧
      ((⟨initRun "w1" "q" 5 0, false⟩ : Sys).run.finished = false →
        (⟨initRun "w1" "q" 5 0, false⟩ : Sys).run.result = none ∧
          (⟨initRun "w1" "q" 5 0, false⟩ : Sys).run.error = none)) :=
  spec_c1_result_error_fields _ (Reachable.init "w1" "q" 5 0)

/-- C1 counterexample: the run state reached by starting a run and then
canceling it through the route is finished with `error` set although its
status is Canceled, not Failed — refuting "the error field is set if and
only if status == Failed". -/
theorem spec_c1_counterexample :
    Reachable canceledMidRun ∧
    canceledMidRun.run.finished = true ∧
    canceledMidRun.run.status ≠ RunStatus.failed ∧
    canceledMidRun.run.error.isSome = true := by
  refine ⟨?_, rfl, by decide, rfl⟩
  exact Reachable.step
    (Reachable.step (Reachable.init "r0" "demo" 10 0) (Step.beginRun _ 1 rfl rfl))
    (Step.cancel _ rfl)

/-- C4: a Progress event carrying numeric `current`/`total` from a
registered stage updates the run's progress to
`max(old, lo + (current/total) * (hi - lo))` — local fraction 0 when
`total <= 0` — with ranges [0,40] for document processing, [40,90] for
content generation and [90,100] for assembly. -/
theorem spec_c4_progress_mapping (rs : RunState) (ev : AgentEvent) (now : Nat)
    (c t : ℚ) (hid : ev.run_id = rs.id) (hty : ev.event_type = .progress)
    (hc : ev.data.current = some c) (ht : ev.data.total = some t) :
    (ev.agent_id = "document_processor" →
      (handleAgentEvent rs ev now).progress =
        max rs.progress (0 + (if 0 < t then c / t else 0) * (40 - 0))) ∧
    (ev.agent_id = "content_generator" →
      (handleAgentEvent rs ev now).progress =
        max rs.progress (40 + (if 0 < t then c / t else 0) * (90 - 40))) ∧
    (ev.agent_id = "document_assembler" →
      (handleAgentEvent rs ev now).progress =
        max rs.progress (90 + (if 0 < t then c / t else 0) * (100 - 90))) := by
  have e40 : (if 0 < t then c / t * 40 else 0) =
      0 + (if 0 < t then c / t else 0) * (40 - 0) := by split_ifs <;> ring
  have e50 : (40 + if 0 < t then c / t * 50 else 0 : ℚ) =
      40 + (if 0 < t then c / t else 0) * (90 - 40) := by split_ifs <;> ring
  have e10 : (90 + if 0 < t then c / t * 10 else 0 : ℚ) =
      90 + (if 0 < t then c / t else 0) * (100 - 90) := by split_ifs <;> ring
  refine ⟨fun ha => ?_, fun ha => ?_, fun ha => ?_⟩
  · cases htd : ev.data.total_docs <;>
      simp [handleAgentEvent, hid, hty, hc, ht, ha, htd, ← e40]
  · simp [handleAgentEvent, hid, hty, hc, ht, ha, ← e50]
    all_goals norm_num
  · simp [handleAgentEvent, hid, hty, hc, ht, ha, ← e10]
    all_goals norm_num

/-- Witness for C4: a document-processor Progress event with current 1 of
total 2 on a fresh run. -/
theorem spec_c4_progress_mapping_witness :
    ((progressEvent "w4" "document_processor" 1 2 "m").agent_id = "document_processor" →
      (handleAgentEvent (initRun "w4" "q" 3 0)
          (progressEvent "w4" "document_processor" 1 2 "m") 7).progress =
        max (initRun "w4" "q" 3 0).progress
          (0 + (if 0 < (2 : ℚ) then (1 : ℚ) / 2 else 0) * (40 - 0))) ∧
    ((progressEvent "w4" "document_processor" 1 2 "m").agent_id = "content_generator" →
      (handleAgentEvent (initRun "w4" "q" 3 0)
          (progressEvent "w4" "document_processor" 1 2 "m") 7).progress =
        max (initRun "w4" "q" 3 0).progress
          (40 + (if 0 < (2 : ℚ) then (1 : ℚ) / 2 else 0) * (90 - 40))) ∧
    ((progressEvent "w4" "document_processor" 1 2 "m").agent_id = "document_assembler" →
      (handleAgentEvent (initRun "w4" "q" 3 0)
          (progressEvent "w4" "document_processor" 1 2 "m") 7).progress =
        max (initRun "w4" "q" 3 0).progress
          (90 + (if 0 < (2 : ℚ) then (1 : ℚ) / 2 else 0) * (100 - 90))) :=
  spec_c4_progress_mapping (initRun "w4" "q" 3 0)
    (progressEvent "w4" "document_processor" 1 2 "m") 7 1 2 rfl rfl rfl rfl

/-- C10: a Progress event for a registered run whose agent is none of the
three pipeline stages leaves `progress`, `processed_docs` and `total_docs`
unchanged; the event is still appended to the log and `updated_at` is
refreshed. -/
theorem spec_c10_unknown_agent_frame (rs : RunState) (ev : AgentEvent) (now : Nat)
    (hid : ev.run_id = rs.id) (hty : ev.event_type = .progress)
    (h1 : ev.agent_id ≠ "document_processor")
    (h2 : ev.agent_id ≠ "content_generator")
    (h3 : ev.agent_id ≠ "document_assembler") :
    (handleAgentEvent rs ev now).progress = rs.progress ∧
    (handleAgentEvent rs ev now).processed_docs = rs.processed_docs ∧
    (handleAgentEvent rs ev now).total_docs = rs.total_docs ∧
    (handleAgentEvent rs ev now).events = rs.events ++ [ev] ∧
    (handleAgentEvent rs ev now).updated_at = now := by
  simp [handleAgentEvent, hid, hty, h1, h2, h3]

/-- Witness for C10: a Progress event from an agent outside the pipeline's
three stages. -/
theorem spec_c10_unknown_agent_frame_witness :
    ((handleAgentEvent (initRun "w10" "q" 3 0)
        (progressEvent "w10" "quality_reviewer" 1 2 "m") 7).progress =
      (initRun "w10" "q" 3 0).progress ∧
    (handleAgentEvent (initRun "w10" "q" 3 0)
        (progressEvent "w10" "quality_reviewer" 1 2 "m") 7).processed_docs =
      (initRun "w10" "q" 3 0).processed_docs ∧
    (handleAgentEvent (initRun "w10" "q" 3 0)
        (progressEvent "w10" "quality_reviewer" 1 2 "m") 7).total_docs =
      (initRun "w10" "q" 3 0).total_docs ∧
    (handleAgentEvent (initRun "w10" "q" 3 0)
        (progressEvent "w10" "quality_reviewer" 1 2 "m") 7).events =
      (initRun "w10" "q" 3 0).events ++ [progressEvent "w10" "quality_reviewer" 1 2 "m"] ∧
    (handleAgentEvent (initRun "w10" "q" 3 0)
        (progressEvent "w10" "quality_reviewer" 1 2 "m") 7).updated_at = 7) :=
  spec_c10_unknown_agent_frame (initRun "w10" "q" 3 0)
    (progressEvent "w10" "quality_reviewer" 1 2 "m") 7 rfl rfl
    (by decide) (by decide) (by decide)

/-- C6: every invocation of a stage's execute wrapper (with the orchestrator's
nonempty uuid run id, around work whose own emissions — steps, progress,
warnings — never include Started/Completed/Failed) emits exactly one Started
event and exactly one terminal event: Completed when the work returns, Failed
(with the failure re-raised to the caller) when it raises; never both. -/
theorem spec_c6_wrapper_symmetry {α : Type} (agent_id run_id : String)
    (resultSummary : α → String) (work : WorkOutcome α)
    (hrid : run_id ≠ "")
    (hwork : ∀ e ∈ work.1, e.event_type ≠ .started ∧
      e.event_type ≠ .completed ∧ e.event_type ≠ .failed) :
    countType (agentExecute agent_id run_id resultSummary work).1 .started = 1 ∧
    countType (agentExecute agent_id run_id resultSummary work).1 .completed +
      countType (agentExecute agent_id run_id resultSummary work).1 .failed = 1 ∧
    (∀ r : α, work.2 = .ok r →
      countType (agentExecute agent_id run_id resultSummary work).1 .completed = 1 ∧
      (agentExecute agent_id run_id resultSummary work).2 = .ok r) ∧
    (∀ e : String, work.2 = .error e →
      countType (agentExecute agent_id run_id resultSummary work).1 .failed = 1 ∧
      (agentExecute agent_id run_id resultSummary work).2 = .error e) := by
  have hS : work.1.filter (fun e => e.event_type == EventType.started) = [] :=
    List.filter_eq_nil_iff.mpr fun e he => by simpa using (hwork e he).1
  have hC : work.1.filter (fun e => e.event_type == EventType.completed) = [] :=
    List.filter_eq_nil_iff.mpr fun e he => by simpa using (hwork e he).2.1
  have hF : work.1.filter (fun e => e.event_type == EventType.failed) = [] :=
    List.filter_eq_nil_iff.mpr fun e he => by simpa using (hwork e he).2.2
  have b1 : (EventType.started == EventType.started) = true := rfl
  have b2 : (EventType.completed == EventType.started) = false := rfl
  have b3 : (EventType.failed == EventType.started) = false := rfl
  have b4 : (EventType.started == EventType.completed) = false := rfl
  have b5 : (EventType.completed == EventType.completed) = true := rfl
  have b6 : (EventType.failed == EventType.completed) = false := rfl
  have b7 : (EventType.started == EventType.failed) = false := rfl
  have b8 : (EventType.completed == EventType.failed) = false := rfl
  have b9 : (EventType.failed == EventType.failed) = true := rfl
  cases hw : work.2 with
  | ok r =>
    refine ⟨?_, ?_, fun r' hr' => ?_, fun e' he' => ?_⟩
    · simp [agentExecute, hrid, hw, countType, mkEvent, List.filter_append,
        List.filter_cons, hS, b1, b2, b4]
    · simp [agentExecute, hrid, hw, countType, mkEvent, List.filter_append,
        List.filter_cons, hC, hF, b4, b5, b6, b7, b8]
    · injection hr' with hrr
      subst hrr
      constructor
      · simp [agentExecute, hrid, hw, countType, mkEvent, List.filter_append,
          List.filter_cons, hC, b4, b5]
      · simp [agentExecute, hrid, hw]
    · simp at he'
  | error e =>
    refine ⟨?_, ?_, fun r' hr' => ?_, fun e' he' => ?_⟩
    · simp [agentExecute, hrid, hw, countType, mkEvent, List.filter_append,
        List.filter_cons, hS, b1, b3, b7]
    · simp [agentExecute, hrid, hw, countType, mkEvent, List.filter_append,
        List.filter_cons, hC, hF, b4, b6, b7, b8, b9]
    · simp at hr'
    · injection he' with hee
      subst hee
      constructor
      · simp [agentExecute, hrid, hw, countType, mkEvent, List.filter_append,
          List.filter_cons, hF, b7, b9]
      · simp [agentExecute, hrid, hw]

/-- Witness for C6: the wrapper around work that emits nothing and returns
a value. -/
theorem spec_c6_wrapper_symmetry_witness :
    (countType (agentExecute "document_processor" "w6" toString
        (([], Except.ok 7) : WorkOutcome Nat)).1 .started = 1 ∧
      countType (agentExecute "document_processor" "w6" toString
          (([], Except.ok 7) : WorkOutcome Nat)).1 .completed +
        countType (agentExecute "document_processor" "w6" toString
          (([], Except.ok 7) : WorkOutcome Nat)).1 .failed = 1 ∧
      (∀ r : Nat, (([], Except.ok 7) : WorkOutcome Nat).2 = .ok r →
        countType (agentExecute "document_processor" "w6" toString
          (([], Except.ok 7) : WorkOutcome Nat)).1 .completed = 1 ∧
        (agentExecute "document_processor" "w6" toString
          (([], Except.ok 7) : WorkOutcome Nat)).2 = .ok r) ∧
      (∀ e : String, (([], Except.ok 7) : WorkOutcome Nat).2 = .error e →
        countType (agentExecute "document_processor" "w6" toString
          (([], Except.ok 7) : WorkOutcome Nat)).1 .failed = 1 ∧
        (agentExecute "document_processor" "w6" toString
          (([], Except.ok 7) : WorkOutcome Nat)).2 = .error e)) :=
  spec_c6_wrapper_symmetry "document_processor" "w6" toString
    (([], Except.ok 7) : WorkOutcome Nat) (by decide)
    (fun e he => absurd he (List.not_mem_nil e))

/-- C7: publishing an event invokes every registered subscriber exactly
once, synchronously in subscription order, with that event; a raising
callback's exception is caught (collected in the log) and neither prevents
delivery to the remaining subscribers — the final state folds every
callback in order — nor propagates to the publisher. -/
theorem spec_c7_bus_delivery {σ : Type} (subs : List (BusCallback σ))
    (ev : AgentEvent) (s : σ) :
    (emitBus subs ev s).2.1 = subs.map (fun c => (c.id, ev)) ∧
    (emitBus subs ev s).1 = subs.foldl (fun st c => (c.run ev st).1) s := by
  induction subs generalizing s with
  | nil => exact ⟨rfl, rfl⟩
  | cons c rest ih =>
    refine ⟨?_, ?_⟩ <;> simp [emitBus, (ih ((c.run ev s).1)).1, (ih ((c.run ev s).1)).2]

/-- C8: cancel fails with NotFound (404) for an unknown run id; fails with
InvalidState (400) for an already finished run, leaving the registry — and
hence every field of that run — unchanged; and otherwise flips the run to
status Canceled, finished true, error "Canceled by user". -/
theorem spec_c8_cancel_route :
    (∀ (runs : Registry) (rid : String), getRunStatus runs rid = none →
      cancelRun runs rid = (runs, .error ⟨404, "Run not found"⟩)) ∧
    (∀ (runs : Registry) (rid : String) (r : RunState),
      getRunStatus runs rid = some r → r.finished = true →
      cancelRun runs rid = (runs, .error ⟨400, "Run already finished"⟩)) ∧
    (∀ (runs : Registry) (rid : String) (r : RunState),
      getRunStatus runs rid = some r → r.finished = false →
      cancelRun runs rid =
        (setRun runs rid
          { r with status := .canceled, finished := true,
                   error := some "Canceled by user" },
         .ok "Run canceled")) := by
  refine ⟨fun runs rid h => ?_, fun runs rid r h hf => ?_, fun runs rid r h hf => ?_⟩
  · simp [cancelRun, h]
  · simp [cancelRun, h, hf]
  · simp [cancelRun, h, hf]

/-- Witness for C8: the three branches on concrete one-run registries. -/
theorem spec_c8_cancel_route_witness :
    (cancelRun [] "x" = ([], .error ⟨404, "Run not found"⟩)) ∧
    (cancelRun regFinished "a" = (regFinished, .error ⟨400, "Run already finished"⟩)) ∧
    (cancelRun regRunning "b" =
      (setRun regRunning "b"
        { initRun "b" "q" 0 0 with status := .canceled, finished := true,
                                   error := some "Canceled by user" },
       .ok "Run canceled")) :=
  ⟨spec_c8_cancel_route.1 [] "x" rfl,
   spec_c8_cancel_route.2.1 regFinished "a"
     { initRun "a" "q" 0 0 with status := .succeeded, finished := true } rfl rfl,
   spec_c8_cancel_route.2.2 regRunning "b" (initRun "b" "q" 0 0) rfl rfl⟩

/-- C9: for a run id not present in the registry, the status query returns
NotFound (404) while the events query returns an empty list rather than an
error; both are read-only functions of the registry, so no run state
changes. -/
theorem spec_c9_unknown_id_queries (runs : Registry) (rid : String)
    (h : getRunStatus runs rid = none) :
    routeGetRunStatus runs rid = .error ⟨404, "Run not found"⟩ ∧
    routeGetRunEvents runs rid = (rid, []) := by
  have h' : List.lookup rid runs = none := h
  exact ⟨by simp [routeGetRunStatus, getRunStatus, h'],
    by simp [routeGetRunEvents, getRunEvents, h']⟩

/-- Witness for C9 on the empty registry. -/
theorem spec_c9_unknown_id_queries_witness :
    routeGetRunStatus [] "x" = .error ⟨404, "Run not found"⟩ ∧
    routeGetRunEvents [] "x" = ("x", []) :=
  spec_c9_unknown_id_queries [] "x" rfl

/-- C2 (observed code behavior): a run whose document scan finds zero files
does get the Warning event and the empty extracted-content result, and all
three downstream stages start and complete on the empty input — but the run
then terminates Failed with error `'total_found'` and no result, because
the zero-files early return of `DocumentProcessor._execute` omits the
`total_found`/`total_processed` keys that
`BESSOrchestrator._run_pipeline`'s final-result construction reads
unconditionally.  The claimed terminal status Succeeded is not reached. -/
theorem spec_c2_zero_docs_run :
    zeroDocsRun.status = RunStatus.failed ∧
    zeroDocsRun.error = some "'total_found'" ∧
    zeroDocsRun.result = none ∧
    countType zeroDocsRun.events .started = 3 ∧
    countType zeroDocsRun.events .completed = 3 ∧
    warningEvent "run-0" "document_processor" "No documents found to process" ∈
      zeroDocsRun.events := by
  refine ⟨rfl, rfl, rfl, rfl, rfl, ?_⟩
  decide

end Asteroid
